import Mathlib

/-!
Verification of the Hamilton TMS client-side synchronization core.

The definitions below are a shallow embedding of the JavaScript source:
  * `static/js/main.js`    — `cycleRouteStatus` (the status 3-cycle and the
    per-button re-entrancy guard around the cycle-status POST);
  * `realtime.js`          — class `RealTimeUpdater` (`startPolling`, `poll`,
    `stopPolling`, `handleSyncData`, `updateRouteData`,
    `updateRoutesContent`, `updateStudentsContent`, `isUserAction`).

Stateful code is modelled by explicit state records and step functions;
the browser event loop is modelled by externally supplied event lists, and
each network response is an explicit input to the step that consumes it.
-/

namespace HamiltonTMS

/-! ### Status cycle (main.js, `cycleRouteStatus`, the `switch` on
`currentStatus`): not_present → arrived → ready → not_present, with the
`default:` branch sending any unrecognized value to not_present. -/

def cycleNextStatus (currentStatus : String) : String :=
  if currentStatus = "not_present" then "arrived"
  else if currentStatus = "arrived" then "ready"
  else if currentStatus = "ready" then "not_present"
  else "not_present"

/-! ### DOM model for the routes table.

A row is identified by the value of its checkbox input (`querySelector`
by `input[value=...]` then `closest('tr')`); its third cell may hold a
`.status-button` whose visual state is the class string, the
`data-current-status` attribute and the inner HTML. -/

structure RouteDelta where
  status : String
  status_color : String
deriving DecidableEq, Repr

structure StatusButton where
  className : String
  currentStatus : String
  innerHTML : String
deriving DecidableEq, Repr

structure Row where
  routeId : String
  statusButton : Option StatusButton
deriving DecidableEq, Repr

/-- The class string written by `updateRouteData` in realtime.js:
`status-button btn btn-${routeData.status_color}`. -/
def statusButtonClass (color : String) : String :=
  "status-button btn btn-" ++ color

/-- The innerHTML written for each status (same markup in realtime.js
`updateRouteData` and in main.js `cycleRouteStatus`'s success handler). -/
def statusInnerHTML (status : String) : String :=
  if status = "ready" then "<i class=\"fas fa-check-circle me-1\"></i>Ready"
  else if status = "arrived" then "<i class=\"fas fa-truck me-1\"></i>Arrived"
  else "<i class=\"fas fa-times-circle me-1\"></i>Not Present"

/-- The body of `updateRouteData`'s per-route block: when the row's button
exists, compare the current class with the new class and mutate class,
`data-current-status` and innerHTML only when they differ. -/
def updateButton (b : StatusButton) (d : RouteDelta) : StatusButton :=
  if b.className = statusButtonClass d.status_color then b
  else { className := statusButtonClass d.status_color
         currentStatus := d.status
         innerHTML := statusInnerHTML d.status }

/-- One delta applied to the rows: find the first row whose id matches
(`document.querySelector` returns the first match), update its status
button in place.  The Bool is the `hasChanges` contribution, set exactly
when `currentClass !== newClass`.  A missing row or missing button is
skipped without error. -/
def updateRow : List Row → String → RouteDelta → List Row × Bool
  | [], _, _ => ([], false)
  | r :: rest, rid, d =>
    if r.routeId = rid then
      match r.statusButton with
      | none => (r :: rest, false)
      | some b =>
        if b.className = statusButtonClass d.status_color then (r :: rest, false)
        else ({ r with statusButton := some (updateButton b d) } :: rest, true)
    else
      (r :: (updateRow rest rid d).1, (updateRow rest rid d).2)

/-- `updateRouteData` (realtime.js): iterate over `Object.entries(routes)`
in order, accumulating the `hasChanges` flag. -/
def updateRouteData (dom : List Row) (routes : List (String × RouteDelta)) :
    List Row × Bool :=
  routes.foldl
    (fun acc p => ((updateRow acc.1 p.1 p.2).1, acc.2 || (updateRow acc.1 p.1 p.2).2))
    (dom, false)

/-! ### Poll payloads and responses (realtime.js `poll`).

`SyncPayload` is the JSON body of `GET /api/sync/{domain}?last_update=...`.
Absent JSON fields are modelled as `none` (for `timestamp` and `routes`)
or as the falsy default (for the Bool flags).  `FetchResult` distinguishes
a rejected fetch / JSON parse error (caught by the `try`/`catch`), a
non-`ok` HTTP response, and an `ok` response with a parsed body. -/

structure SyncPayload where
  success : Bool
  timestamp : Option Nat
  routes_updated : Bool
  routes : Option (List (String × RouteDelta))
  needs_refresh : Bool
deriving DecidableEq, Repr

inductive FetchResult
  | netError
  | httpError
  | ok (data : SyncPayload)
deriving DecidableEq, Repr

/-- Outcome of the page-HTML fetch inside `updateRoutesContent` /
`updateStudentsContent`: the fetch throwing (caught, falls back to
`window.location.reload()`), a non-`ok` response (silently ignored), or a
fresh table body parsed out of the fetched document. -/
inductive RefreshFetch
  | rfError
  | rfNotOk
  | rfOk (rows : List Row)
deriving DecidableEq, Repr

/-- Client-observable state of one `RealTimeUpdater` page session.
`lastUpdate` is `Option Nat` because the JS field is overwritten with
`data.timestamp`, which is `undefined` (`none`) when the payload carries
no timestamp.  `reloadCount` counts `window.location.reload` calls,
`connectionShown` is the last `showConnectionStatus` argument,
`syncLogCount` counts the "updated from another device" log line and
`errorLogCount` the `console.error` calls.  `now` and `lastUserAction`
are wall-clock milliseconds (`Date.now()` and the `lastUserAction`
localStorage key). -/
structure ClientState where
  currentPage : String
  pollIntervalMs : Nat
  lastUpdate : Option Nat
  isPolling : Bool
  pollTimerSet : Bool
  dom : List Row
  reloadCount : Nat
  connectionShown : Option String
  lastUserAction : Nat
  now : Nat
  syncLogCount : Nat
  errorLogCount : Nat
deriving DecidableEq, Repr

/-- `isUserAction` (realtime.js): a user action within the last 10
seconds. -/
def isUserAction (st : ClientState) : Bool :=
  decide (st.now - st.lastUserAction < 10000)

/-- State after the constructor plus `init()`: cursor 0, polling enabled
(and the "connected" indicator shown) exactly on the routes page. -/
def initClientState (page : String) (now0 lastAction : Nat) : ClientState :=
  { currentPage := page
    pollIntervalMs := 5000
    lastUpdate := some 0
    isPolling := decide (page = "routes")
    pollTimerSet := false
    dom := []
    reloadCount := 0
    connectionShown := if page = "routes" then some "connected" else none
    lastUserAction := lastAction
    now := now0
    syncLogCount := 0
    errorLogCount := 0 }

/-- `updateRoutesContent` (realtime.js): refetch the page, swap the table
body on success, fall back to a full reload when the fetch throws. -/
def updateRoutesContent (st : ClientState) (cf : RefreshFetch) : ClientState :=
  match cf with
  | .rfError =>
      { st with errorLogCount := st.errorLogCount + 1
                reloadCount := st.reloadCount + 1 }
  | .rfNotOk => st
  | .rfOk rows => { st with dom := rows }

/-- `updateStudentsContent` (realtime.js): same structure as
`updateRoutesContent`, acting on the students table. -/
def updateStudentsContent (st : ClientState) (cf : RefreshFetch) : ClientState :=
  match cf with
  | .rfError =>
      { st with errorLogCount := st.errorLogCount + 1
                reloadCount := st.reloadCount + 1 }
  | .rfNotOk => st
  | .rfOk rows => { st with dom := rows }

/-- The routes-page delta block of `handleSyncData`: apply
`updateRouteData` to the DOM and log only when changes were detected and
`isUserAction()` is false. -/
def applyRoutesDeltas (st : ClientState) (data : SyncPayload) : ClientState :=
  { st with
    dom := (updateRouteData st.dom (data.routes.getD [])).1
    syncLogCount :=
      if (updateRouteData st.dom (data.routes.getD [])).2 = true ∧ isUserAction st = false
      then st.syncLogCount + 1 else st.syncLogCount }

/-- `handleSyncData` (realtime.js): on the routes page a true
`routes_updated` forces `window.location.reload(true)` and returns before
any delta is applied; otherwise a present `routes` object is applied via
`updateRouteData`, followed by a content-only refresh when
`needs_refresh`; on the students page `needs_refresh` triggers a content
refresh unless a recent user action suppresses it. -/
def handleSyncData (st : ClientState) (data : SyncPayload) (cf : RefreshFetch) :
    ClientState :=
  if st.currentPage = "routes" ∧ data.routes_updated = true then
    { st with reloadCount := st.reloadCount + 1 }
  else if st.currentPage = "routes" ∧ data.routes.isSome = true then
    (if data.needs_refresh = true then updateRoutesContent (applyRoutesDeltas st data) cf
     else applyRoutesDeltas st data)
  else if st.currentPage = "students" ∧ data.needs_refresh = true then
    (if isUserAction st = true then st else updateStudentsContent st cf)
  else st

/-- One execution of `poll()` (realtime.js) given the fetch outcome `fr`
and, for a nested content refresh, its fetch outcome `cf`:
  * entry guard: a no-op when `isPolling` is false;
  * `response.ok` with `data.success`: `handleSyncData(data)` then
    `this.lastUpdate = data.timestamp` (unconditionally, even when the
    timestamp field is absent);
  * fetch rejection: `console.error` plus the "disconnected" indicator;
  * finally, the next tick is scheduled iff still polling. -/
def pollStep (st : ClientState) (fr : FetchResult) (cf : RefreshFetch) : ClientState :=
  if st.isPolling = false then st
  else
    let st1 :=
      match fr with
      | .netError =>
          { st with errorLogCount := st.errorLogCount + 1
                    connectionShown := some "disconnected" }
      | .httpError => st
      | .ok data =>
          if data.success = true then
            { handleSyncData st data cf with lastUpdate := data.timestamp }
          else st
    if st1.isPolling = true then { st1 with pollTimerSet := true } else st1

/-! ### Scheduling skeleton of the poller (realtime.js `startPolling`,
`stopPolling`, and the entry/exit lines of `poll`).

This transition system models exactly the control state that governs
overlap of fetches and timers:
  * `isPolling` — the instance flag;
  * `timerScheduled` — whether `this.pollTimer` currently references a
    pending `setTimeout`;
  * `lostTimers` — pending timeouts whose ids were overwritten in
    `this.pollTimer` and can therefore no longer be cancelled by
    `stopPolling`;
  * `inFlight` — fetches started by `poll()` and not yet settled.

Events: the public `startPolling`/`stopPolling` calls, a fetch settling
(running the tail of `poll()`, which schedules the next tick iff still
polling), and a pending timeout firing (which calls `poll()`, whose entry
guard starts a fetch iff `isPolling`). -/

structure PollerState where
  isPolling : Bool
  timerScheduled : Bool
  lostTimers : Nat
  inFlight : Nat
deriving DecidableEq, Repr

def pInit : PollerState :=
  { isPolling := false, timerScheduled := false, lostTimers := 0, inFlight := 0 }

/-- The entry of `poll()`: `if (!this.isPolling) return;` then the fetch
is issued. -/
def pollEntry (s : PollerState) : PollerState :=
  if s.isPolling = true then { s with inFlight := s.inFlight + 1 } else s

inductive PEvent
  | start
  | stop
  | settle
  | timerFire
  | lostTimerFire
deriving DecidableEq, Repr

def pollerStep (s : PollerState) (e : PEvent) : PollerState :=
  match e with
  | .start =>
      -- startPolling: no-op when already polling, else set the flag and
      -- call poll() immediately.
      if s.isPolling = true then s else pollEntry { s with isPolling := true }
  | .stop =>
      -- stopPolling: clear the flag and clearTimeout the referenced timer.
      { s with isPolling := false, timerScheduled := false }
  | .settle =>
      -- tail of poll() after the fetch settles: schedule the next tick iff
      -- still polling; `this.pollTimer = setTimeout(...)` overwrites any
      -- previously referenced pending timer, which becomes lost.
      if s.inFlight = 0 then s
      else
        if s.isPolling = true then
          if s.timerScheduled = true then
            { s with inFlight := s.inFlight - 1, lostTimers := s.lostTimers + 1 }
          else
            { s with inFlight := s.inFlight - 1, timerScheduled := true }
        else { s with inFlight := s.inFlight - 1 }
  | .timerFire =>
      if s.timerScheduled = true then pollEntry { s with timerScheduled := false }
      else s
  | .lostTimerFire =>
      if s.lostTimers = 0 then s
      else pollEntry { s with lostTimers := s.lostTimers - 1 }

def runPoller (s : PollerState) (evs : List PEvent) : PollerState :=
  evs.foldl pollerStep s

/-- Whether handling event `e` in state `s` starts a new fetch. -/
def fetchStarted (s : PollerState) (e : PEvent) : Bool :=
  decide (s.inFlight < (pollerStep s e).inFlight)

/-- Number of fetches started along an event list. -/
def countFetchStarts : PollerState → List PEvent → Nat
  | _, [] => 0
  | s, e :: evs =>
      (if fetchStarted s e = true then 1 else 0) + countFetchStarts (pollerStep s e) evs

/-! ### Per-button re-entrancy guard of `cycleRouteStatus` (main.js).

State of one status button together with the observable side effects of
`cycleRouteStatus` on it: `processing` is `dataset.processing === 'true'`,
`pendingReenable` records the 300 ms `setTimeout` scheduled by the
`.finally` handler, `postsStarted`/`inFlight` count the cycle-status POST
requests issued / not yet settled, `guardMarks` counts the
`trackUserUpdate(routeId)` calls and `lastUserActionWrites` the
`localStorage.setItem('lastUserAction', ...)` writes. -/

structure CycleButton where
  processing : Bool
  disabled : Bool
  loading : Bool
  currentStatus : String
  className : String
  innerHTML : String
  postsStarted : Nat
  inFlight : Nat
  pendingReenable : Bool
  guardMarks : Nat
  lastUserActionWrites : Nat
deriving DecidableEq, Repr

/-- Server response to the cycle-status POST as seen by the `.then` /
`.catch` handlers. -/
inductive CycleResponse
  | netError
  | ok (success : Bool) (status : String)
deriving DecidableEq, Repr

inductive CEvent
  | click
  | settle (r : CycleResponse)
  | reenableFire
deriving DecidableEq, Repr

/-- The color chosen by the success handler:
`data.status === 'ready' ? 'success' : data.status === 'arrived' ? 'warning' : 'danger'`. -/
def cycleStatusColor (status : String) : String :=
  if status = "ready" then "success"
  else if status = "arrived" then "warning"
  else "danger"

/-- The synchronous body of `cycleRouteStatus` up to issuing the POST:
return immediately when the button is disabled or its processing flag is
set; otherwise set both flags, call `trackUserUpdate`, write
`lastUserAction`, show the loading state and start the fetch. -/
def cycleClick (b : CycleButton) : CycleButton :=
  if b.disabled = true ∨ b.processing = true then b
  else
    { b with processing := true
             disabled := true
             guardMarks := b.guardMarks + 1
             lastUserActionWrites := b.lastUserActionWrites + 1
             loading := true
             postsStarted := b.postsStarted + 1
             inFlight := b.inFlight + 1 }

/-- The `.then`/`.catch` handlers plus the `.finally`: hide the loading
state (re-enabling `disabled` but not the processing flag), repaint the
button from the server-returned status on success, and schedule the
300 ms re-enable timeout. -/
def cycleSettle (b : CycleButton) (r : CycleResponse) : CycleButton :=
  if b.inFlight = 0 then b
  else
    let b1 := { b with inFlight := b.inFlight - 1, disabled := false, loading := false }
    let b2 :=
      match r with
      | .ok true status =>
          { b1 with currentStatus := status
                    className := "status-button btn btn-" ++ cycleStatusColor status
                    innerHTML := statusInnerHTML status }
      | _ => b1
    { b2 with pendingReenable := true }

/-- The delay of the `.finally` re-enable timeout, in milliseconds. -/
def reenableDelayMs : Nat := 300

/-- The body of the `.finally` timeout: clear the processing flag and
re-enable the button. -/
def cycleReenable (b : CycleButton) : CycleButton :=
  if b.pendingReenable = true then
    { b with pendingReenable := false, processing := false, disabled := false }
  else b

def cycleButtonStep (b : CycleButton) : CEvent → CycleButton
  | .click => cycleClick b
  | .settle r => cycleSettle b r
  | .reenableFire => cycleReenable b

def runCycleButton (b : CycleButton) (evs : List CEvent) : CycleButton :=
  evs.foldl cycleButtonStep b

/-- A rendered, idle status button. -/
def cycleButtonInit : CycleButton :=
  { processing := false, disabled := false, loading := false
    currentStatus := "not_present"
    className := "status-button btn btn-danger"
    innerHTML := statusInnerHTML "not_present"
    postsStarted := 0, inFlight := 0, pendingReenable := false
    guardMarks := 0, lastUserActionWrites := 0 }

/-! ### Concrete scenario states used by the evidence theorems. -/

/-- One rendered routes row: route "r1", shown as Not Present. -/
def c1Dom : List Row :=
  [{ routeId := "r1"
     statusButton := some
       { className := "status-button btn btn-danger"
         currentStatus := "not_present"
         innerHTML := statusInnerHTML "not_present" } }]

/-- Routes-page session state one second after the local user changed
route "r1" (the user action timestamp was written at t = 100000 ms, the
poll response is processed at t = 101000 ms, well inside both the 5 s and
the 10 s guard windows that appear in the source). -/
def c1State : ClientState :=
  { currentPage := "routes"
    pollIntervalMs := 5000
    lastUpdate := some 0
    isPolling := true
    pollTimerSet := false
    dom := c1Dom
    reloadCount := 0
    connectionShown := none
    lastUserAction := 100000
    now := 101000
    syncLogCount := 0
    errorLogCount := 0 }

/-- A poll payload carrying a stale-overriding delta for route "r1". -/
def c1Payload : SyncPayload :=
  { success := true, timestamp := some 42, routes_updated := false
    routes := some [("r1", { status := "ready", status_color := "success" })]
    needs_refresh := false }

/-- Successful empty payload with server timestamp 5. -/
def c2Payload1 : SyncPayload :=
  { success := true, timestamp := some 5, routes_updated := false
    routes := none, needs_refresh := false }

/-- Successful empty payload with the smaller server timestamp 3. -/
def c2Payload2 : SyncPayload :=
  { success := true, timestamp := some 3, routes_updated := false
    routes := none, needs_refresh := false }

/-- Routes-page session whose cursor has already advanced to 7. -/
def c3State : ClientState :=
  { initClientState "routes" 100000 0 with lastUpdate := some 7 }

/-- The malformed payload of the claim: `{success: true}` with no
`routes` field and no `timestamp` field. -/
def c3Payload : SyncPayload :=
  { success := true, timestamp := none, routes_updated := false
    routes := none, needs_refresh := false }

/-- A well-formed success payload with a timestamp, for the
advancing sub-case. -/
def c3PayloadTs : SyncPayload :=
  { success := true, timestamp := some 9, routes_updated := false
    routes := none, needs_refresh := false }

/-- A success payload with a (possibly empty) routes object and
`needs_refresh` set, but `routes_updated` false. -/
def c8Payload : SyncPayload :=
  { success := true, timestamp := some 9, routes_updated := false
    routes := some [], needs_refresh := true }

/-- A payload with `routes_updated` set. -/
def c8PayloadReload : SyncPayload :=
  { success := true, timestamp := some 9, routes_updated := true
    routes := some [], needs_refresh := false }

/-- Invariant of the poller scheduling skeleton in stop-free runs: no
lost timers, at most one fetch or referenced timer pending overall, and
nothing pending at all when polling is off. -/
def PollerInv (s : PollerState) : Prop :=
  s.lostTimers = 0 ∧
  s.inFlight + (if s.timerScheduled = true then 1 else 0) ≤ 1 ∧
  (s.isPolling = false → s.inFlight = 0 ∧ s.timerScheduled = false)

/-- Invariant of the cycle-status button: at most one POST in flight, the
processing flag covers any in-flight POST, and while the re-enable
timeout is pending nothing is in flight and the flag is still set. -/
def CycleInv (b : CycleButton) : Prop :=
  b.inFlight ≤ 1 ∧
  (b.inFlight = 1 → b.processing = true) ∧
  (b.pendingReenable = true → b.inFlight = 0 ∧ b.processing = true)

/-! ### Helper lemmas. -/

lemma routes_ne_students : ¬ (("routes" : String) = "students") := by decide

lemma updateRoutesContent_isPolling (st : ClientState) (cf : RefreshFetch) :
    (updateRoutesContent st cf).isPolling = st.isPolling := by
  cases cf <;> rfl

lemma updateStudentsContent_isPolling (st : ClientState) (cf : RefreshFetch) :
    (updateStudentsContent st cf).isPolling = st.isPolling := by
  cases cf <;> rfl

lemma updateRoutesContent_lastUpdate (st : ClientState) (cf : RefreshFetch) :
    (updateRoutesContent st cf).lastUpdate = st.lastUpdate := by
  cases cf <;> rfl

lemma updateRoutesContent_reloadCount (st : ClientState) (cf : RefreshFetch) :
    (updateRoutesContent st cf).reloadCount =
      (if cf = RefreshFetch.rfError then st.reloadCount + 1 else st.reloadCount) := by
  cases cf <;> rfl

lemma handleSyncData_isPolling (st : ClientState) (data : SyncPayload)
    (cf : RefreshFetch) : (handleSyncData st data cf).isPolling = st.isPolling := by
  unfold handleSyncData
  split_ifs <;>
    first
      | rfl
      | (cases cf <;> rfl)

lemma pollStep_stopped (st : ClientState) (fr : FetchResult) (cf : RefreshFetch)
    (h : st.isPolling = false) : pollStep st fr cf = st := by
  unfold pollStep
  simp [h]

lemma pollStep_ok_success (st : ClientState) (d : SyncPayload) (cf : RefreshFetch)
    (hpoll : st.isPolling = true) (hs : d.success = true) :
    pollStep st (FetchResult.ok d) cf =
      { handleSyncData st d cf with lastUpdate := d.timestamp, pollTimerSet := true } := by
  unfold pollStep
  simp [hpoll, hs, handleSyncData_isPolling]

lemma pollStep_netError (st : ClientState) (cf : RefreshFetch)
    (hpoll : st.isPolling = true) :
    pollStep st FetchResult.netError cf =
      { st with errorLogCount := st.errorLogCount + 1
                connectionShown := some "disconnected"
                pollTimerSet := true } := by
  unfold pollStep
  simp [hpoll]

lemma pollStep_httpError (st : ClientState) (cf : RefreshFetch)
    (hpoll : st.isPolling = true) :
    pollStep st FetchResult.httpError cf = { st with pollTimerSet := true } := by
  unfold pollStep
  simp [hpoll]

lemma pollStep_ok_failure (st : ClientState) (d : SyncPayload) (cf : RefreshFetch)
    (hpoll : st.isPolling = true) (hs : d.success = false) :
    pollStep st (FetchResult.ok d) cf = { st with pollTimerSet := true } := by
  unfold pollStep
  simp [hpoll, hs]

lemma handleSyncData_reload (st : ClientState) (d : SyncPayload) (cf : RefreshFetch)
    (hpage : st.currentPage = "routes") (hru : d.routes_updated = true) :
    handleSyncData st d cf = { st with reloadCount := st.reloadCount + 1 } := by
  unfold handleSyncData
  simp [hpage, hru]

lemma handleSyncData_noRoutes (st : ClientState) (d : SyncPayload) (cf : RefreshFetch)
    (hpage : st.currentPage = "routes") (hru : d.routes_updated = false)
    (hr : d.routes = none) :
    handleSyncData st d cf = st := by
  unfold handleSyncData
  simp [hpage, hru, hr, routes_ne_students]

lemma handleSyncData_deltas (st : ClientState) (d : SyncPayload) (cf : RefreshFetch)
    (hpage : st.currentPage = "routes") (hru : d.routes_updated = false)
    (hr : d.routes.isSome = true) :
    handleSyncData st d cf =
      (if d.needs_refresh = true then updateRoutesContent (applyRoutesDeltas st d) cf
       else applyRoutesDeltas st d) := by
  unfold handleSyncData
  simp [hpage, hru, hr]

lemma applyRoutesDeltas_reloadCount (st : ClientState) (d : SyncPayload) :
    (applyRoutesDeltas st d).reloadCount = st.reloadCount := rfl

lemma applyRoutesDeltas_lastUpdate (st : ClientState) (d : SyncPayload) :
    (applyRoutesDeltas st d).lastUpdate = st.lastUpdate := rfl

/-- Second application of the same delta finds the class already equal
and takes no action. -/
lemma updateRow_idem (dom : List Row) (rid : String) (d : RouteDelta) :
    updateRow (updateRow dom rid d).1 rid d = ((updateRow dom rid d).1, false) := by
  induction dom with
  | nil => rfl
  | cons r rest ih =>
    by_cases h : r.routeId = rid
    · cases hb : r.statusButton with
      | none => simp [updateRow, h, hb]
      | some b =>
        by_cases hc : b.className = statusButtonClass d.status_color
        · simp [updateRow, h, hb, hc]
        · simp [updateRow, h, hb, hc, updateButton]
    · simp [updateRow, h, ih]

lemma pollerInv_init : PollerInv pInit := by
  refine ⟨rfl, ?_, fun _ => ⟨rfl, rfl⟩⟩
  decide

lemma pollerInv_step (s : PollerState) (e : PEvent) (hI : PollerInv s)
    (he : e ≠ PEvent.stop) : PollerInv (pollerStep s e) := by
  obtain ⟨h0, h1, h2⟩ := hI
  cases e with
  | stop => exact absurd rfl he
  | start =>
    by_cases hp : s.isPolling = true
    · simpa [pollerStep, hp] using ⟨h0, h1, h2⟩
    · have hp' : s.isPolling = false := by simpa using hp
      obtain ⟨hf, ht⟩ := h2 hp'
      simp [pollerStep, hp, pollEntry, PollerInv, h0, hf, ht]
  | settle =>
    by_cases hf0 : s.inFlight = 0
    · simpa [pollerStep, hf0] using ⟨h0, h1, h2⟩
    · have ht : s.timerScheduled = false := by
        cases ht' : s.timerScheduled
        · rfl
        · rw [ht'] at h1; simp at h1; omega
      have hf1 : s.inFlight = 1 := by rw [ht] at h1; simp at h1; omega
      have hp : s.isPolling = true := by
        cases hp' : s.isPolling
        · exact absurd (h2 hp').1 hf0
        · rfl
      simp [pollerStep, hf0, hp, ht, PollerInv, h0, hf1]
  | timerFire =>
    by_cases ht : s.timerScheduled = true
    · have hf : s.inFlight = 0 := by rw [ht] at h1; simp at h1; omega
      have hp : s.isPolling = true := by
        cases hp' : s.isPolling
        · exact absurd (h2 hp').2 (by simp [ht])
        · rfl
      simp [pollerStep, ht, pollEntry, hp, PollerInv, h0, hf]
    · simpa [pollerStep, ht] using ⟨h0, h1, h2⟩
  | lostTimerFire =>
    simpa [pollerStep, h0] using ⟨h0, h1, h2⟩

lemma pollerInv_run (evs : List PEvent) :
    ∀ s : PollerState, PollerInv s → PEvent.stop ∉ evs →
      PollerInv (runPoller s evs) := by
  induction evs with
  | nil => intro s hI _; simpa [runPoller] using hI
  | cons e evs ih =>
    intro s hI hmem
    have he : e ≠ PEvent.stop := by
      intro heq; exact hmem (by simp [heq])
    have hmem' : PEvent.stop ∉ evs := by
      intro hin; exact hmem (by simp [hin])
    have : runPoller s (e :: evs) = runPoller (pollerStep s e) evs := rfl
    rw [this]
    exact ih (pollerStep s e) (pollerInv_step s e hI he) hmem'

lemma pollerStepped_no_start (s : PollerState) (e : PEvent)
    (hp : s.isPolling = false) (he : e ≠ PEvent.start) :
    (pollerStep s e).isPolling = false ∧ fetchStarted s e = false := by
  cases e with
  | start => exact absurd rfl he
  | stop => simp [pollerStep, fetchStarted]
  | settle =>
    by_cases hf0 : s.inFlight = 0
    · simp [pollerStep, hf0, hp, fetchStarted]
    · constructor
      · simp [pollerStep, hf0, hp]
      · simp [fetchStarted, pollerStep, hf0, hp]
  | timerFire =>
    by_cases ht : s.timerScheduled = true
    · simp [pollerStep, ht, pollEntry, hp, fetchStarted]
    · simp [pollerStep, ht, hp, fetchStarted]
  | lostTimerFire =>
    by_cases hl : s.lostTimers = 0
    · simp [pollerStep, hl, hp, fetchStarted]
    · simp [pollerStep, hl, pollEntry, hp, fetchStarted]

lemma countFetchStarts_stopped (evs : List PEvent) :
    ∀ s : PollerState, s.isPolling = false → PEvent.start ∉ evs →
      countFetchStarts s evs = 0 := by
  induction evs with
  | nil => intro s _ _; rfl
  | cons e evs ih =>
    intro s hp hmem
    have he : e ≠ PEvent.start := by
      intro heq; exact hmem (by simp [heq])
    have hmem' : PEvent.start ∉ evs := by
      intro hin; exact hmem (by simp [hin])
    obtain ⟨hp', hfs⟩ := pollerStepped_no_start s e hp he
    simp [countFetchStarts, hfs, ih (pollerStep s e) hp' hmem']

lemma cycleInv_step (b : CycleButton) (e : CEvent) (hI : CycleInv b) :
    CycleInv (cycleButtonStep b e) := by
  obtain ⟨h1, h2, h3⟩ := hI
  cases e with
  | click =>
    by_cases hblk : b.disabled = true ∨ b.processing = true
    · simpa [cycleButtonStep, cycleClick, hblk] using ⟨h1, h2, h3⟩
    · have hproc : b.processing = false := by
        cases hpr : b.processing
        · rfl
        · exact absurd (Or.inr hpr) hblk
      have hf : b.inFlight = 0 := by
        cases hn : b.inFlight with
        | zero => rfl
        | succ n =>
          have : b.inFlight = 1 := by omega
          rw [h2 this] at hproc; cases hproc
      have hpend : b.pendingReenable = false := by
        cases hpr : b.pendingReenable
        · rfl
        · rw [(h3 hpr).2] at hproc; cases hproc
      simp [cycleButtonStep, cycleClick, hblk, CycleInv, hf, hpend]
  | settle r =>
    by_cases hf0 : b.inFlight = 0
    · simpa [cycleButtonStep, cycleSettle, hf0] using ⟨h1, h2, h3⟩
    · have hf1 : b.inFlight = 1 := by omega
      have hproc : b.processing = true := h2 hf1
      cases r with
      | netError => simp [cycleButtonStep, cycleSettle, hf0, CycleInv, hf1, hproc]
      | ok succ status =>
        cases succ <;>
          simp [cycleButtonStep, cycleSettle, hf0, CycleInv, hf1, hproc]
  | reenableFire =>
    by_cases hpr : b.pendingReenable = true
    · have hf : b.inFlight = 0 := (h3 hpr).1
      simp [cycleButtonStep, cycleReenable, hpr, CycleInv, hf]
    · simpa [cycleButtonStep, cycleReenable, hpr] using ⟨h1, h2, h3⟩

lemma cycleInv_init : CycleInv cycleButtonInit := by
  refine ⟨?_, ?_, ?_⟩ <;> simp [cycleButtonInit]

lemma cycleInv_run (evs : List CEvent) :
    ∀ b : CycleButton, CycleInv b → CycleInv (runCycleButton b evs) := by
  induction evs with
  | nil => intro b hI; simpa [runCycleButton] using hI
  | cons e evs ih =>
    intro b hI
    have : runCycleButton b (e :: evs) = runCycleButton (cycleButtonStep b e) evs := rfl
    rw [this]
    exact ih (cycleButtonStep b e) (cycleInv_step b e hI)

lemma cycleNextStatus_cases (s : String) :
    cycleNextStatus s = "arrived" ∨ cycleNextStatus s = "ready" ∨
      cycleNextStatus s = "not_present" := by
  unfold cycleNextStatus
  split_ifs <;> simp

/-! ### Claim theorems. -/

/-- Claim C1: the spec (and the repository's own replit.md) require that a
delta for a route the local user just changed is dropped for the guarded
tick, but `updateRouteData` consults no per-route guard at all: with the
user-action mark written one second ago (well inside both the 5 s window
documented in replit.md and the 10 s window of `isUserAction`), the
incoming delta for route "r1" is still applied to the DOM — only the
console notification is suppressed (`syncLogCount` stays 0). -/
theorem c1_guard_not_consulted :
    isUserAction c1State = true ∧
    (pollStep c1State (FetchResult.ok c1Payload) RefreshFetch.rfNotOk).dom =
      [{ routeId := "r1"
         statusButton := some
           { className := "status-button btn btn-success"
             currentStatus := "ready"
             innerHTML := statusInnerHTML "ready" } }] ∧
    (pollStep c1State (FetchResult.ok c1Payload) RefreshFetch.rfNotOk).dom ≠ c1State.dom ∧
    (pollStep c1State (FetchResult.ok c1Payload) RefreshFetch.rfNotOk).syncLogCount = 0 := by
  decide

/-- Claim C2 counterexample: the cursor is overwritten by each successful
response's timestamp with no monotonicity check, so a response carrying a
smaller server timestamp moves the cursor backward (0 → 5 → 3). -/
theorem c2_counterexample :
    (pollStep (initClientState "routes" 100000 0) (FetchResult.ok c2Payload1)
        RefreshFetch.rfNotOk).lastUpdate = some 5 ∧
    (pollStep
        (pollStep (initClientState "routes" 100000 0) (FetchResult.ok c2Payload1)
          RefreshFetch.rfNotOk)
        (FetchResult.ok c2Payload2) RefreshFetch.rfNotOk).lastUpdate = some 3 := by
  decide

/-- Claim C2 (amended): the cursor starts at 0 on page load and is only
ever changed by being assigned the timestamp field of a successful poll
response; the code performs no monotonicity check of its own. -/
theorem c2_cursor_assignment :
    (∀ (page : String) (now0 la : Nat), (initClientState page now0 la).lastUpdate = some 0) ∧
    (∀ (st : ClientState) (fr : FetchResult) (cf : RefreshFetch),
      (pollStep st fr cf).lastUpdate = st.lastUpdate ∨
      ∃ d : SyncPayload, fr = FetchResult.ok d ∧ d.success = true ∧
        (pollStep st fr cf).lastUpdate = d.timestamp) := by
  refine ⟨fun _ _ _ => rfl, fun st fr cf => ?_⟩
  cases hp : st.isPolling with
  | false => rw [pollStep_stopped st fr cf hp]; exact Or.inl rfl
  | true =>
    cases fr with
    | netError => rw [pollStep_netError st cf hp]; exact Or.inl rfl
    | httpError => rw [pollStep_httpError st cf hp]; exact Or.inl rfl
    | ok d =>
      cases hs : d.success with
      | false => rw [pollStep_ok_failure st d cf hp hs]; exact Or.inl rfl
      | true =>
        exact Or.inr ⟨d, rfl, hs, by rw [pollStep_ok_success st d cf hp hs]⟩

/-- Claim C3 counterexample: for the payload `{success: true}` with no
routes and no timestamp field the DOM is indeed untouched, but the cursor
does not remain at its prior value 7 — it is clobbered with the absent
timestamp (undefined). -/
theorem c3_counterexample :
    (pollStep c3State (FetchResult.ok c3Payload) RefreshFetch.rfNotOk).dom = c3State.dom ∧
    c3State.lastUpdate = some 7 ∧
    (pollStep c3State (FetchResult.ok c3Payload) RefreshFetch.rfNotOk).lastUpdate = none ∧
    (pollStep c3State (FetchResult.ok c3Payload) RefreshFetch.rfNotOk).lastUpdate ≠
      c3State.lastUpdate := by
  decide

/-- Claim C3 (amended): a successful payload without a routes field
leaves the DOM untouched and forces no reload, and the cursor is
unconditionally assigned the payload's timestamp field — it advances to a
present timestamp, and is set to undefined (`none`) rather than retaining
its prior value when the field is absent. -/
theorem c3_malformed_payload (st : ClientState) (cf : RefreshFetch) (d : SyncPayload)
    (hpoll : st.isPolling = true) (hpage : st.currentPage = "routes")
    (hs : d.success = true) (hr : d.routes = none) (hru : d.routes_updated = false) :
    (pollStep st (FetchResult.ok d) cf).dom = st.dom ∧
    (pollStep st (FetchResult.ok d) cf).reloadCount = st.reloadCount ∧
    (pollStep st (FetchResult.ok d) cf).lastUpdate = d.timestamp := by
  rw [pollStep_ok_success st d cf hpoll hs, handleSyncData_noRoutes st d cf hpage hru hr]
  exact ⟨rfl, rfl, rfl⟩

theorem c3_malformed_payload_witness :
    (pollStep c3State (FetchResult.ok c3PayloadTs) RefreshFetch.rfNotOk).dom = c3State.dom ∧
    (pollStep c3State (FetchResult.ok c3PayloadTs) RefreshFetch.rfNotOk).reloadCount =
      c3State.reloadCount ∧
    (pollStep c3State (FetchResult.ok c3PayloadTs) RefreshFetch.rfNotOk).lastUpdate =
      c3PayloadTs.timestamp :=
  c3_malformed_payload c3State RefreshFetch.rfNotOk c3PayloadTs (by decide) (by decide)
    rfl rfl rfl

/-- Claim C4: when the fetch rejects, the error is absorbed by the
`catch` (the step is total and merely increments the error log), the
cursor is not advanced, the "disconnected" indicator is shown, the DOM is
untouched, no reload happens, and the next tick is still scheduled at the
unchanged ordinary interval. -/
theorem c4_network_failure (st : ClientState) (cf : RefreshFetch)
    (hpoll : st.isPolling = true) :
    (pollStep st FetchResult.netError cf).lastUpdate = st.lastUpdate ∧
    (pollStep st FetchResult.netError cf).errorLogCount = st.errorLogCount + 1 ∧
    (pollStep st FetchResult.netError cf).connectionShown = some "disconnected" ∧
    (pollStep st FetchResult.netError cf).pollTimerSet = true ∧
    (pollStep st FetchResult.netError cf).dom = st.dom ∧
    (pollStep st FetchResult.netError cf).reloadCount = st.reloadCount ∧
    (pollStep st FetchResult.netError cf).pollIntervalMs = st.pollIntervalMs := by
  rw [pollStep_netError st cf hpoll]
  exact ⟨rfl, rfl, rfl, rfl, rfl, rfl, rfl⟩

theorem c4_network_failure_witness :
    (pollStep (initClientState "routes" 100000 0) FetchResult.netError
        RefreshFetch.rfNotOk).lastUpdate = (initClientState "routes" 100000 0).lastUpdate ∧
    (pollStep (initClientState "routes" 100000 0) FetchResult.netError
        RefreshFetch.rfNotOk).connectionShown = some "disconnected" ∧
    (pollStep (initClientState "routes" 100000 0) FetchResult.netError
        RefreshFetch.rfNotOk).pollTimerSet = true :=
  ⟨(c4_network_failure (initClientState "routes" 100000 0) RefreshFetch.rfNotOk
      (by decide)).1,
   (c4_network_failure (initClientState "routes" 100000 0) RefreshFetch.rfNotOk
      (by decide)).2.2.1,
   (c4_network_failure (initClientState "routes" 100000 0) RefreshFetch.rfNotOk
      (by decide)).2.2.2.1⟩

/-- Claim C5 counterexample: `stopPolling` followed by `startPolling`
while the first fetch is still in flight puts a second fetch in flight,
so "at most one poll fetch in flight in every reachable execution" is
false. -/
theorem c5_counterexample :
    (runPoller pInit [PEvent.start, PEvent.stop, PEvent.start]).inFlight = 2 := by
  decide

/-- Claim C5 (amended): `startPolling` is idempotent (a no-op while
already polling), and in every execution that never calls `stopPolling`
at most one fetch is in flight at any instant, because the next tick is
scheduled only after the current one settles. -/
theorem c5_start_idempotent_single_flight :
    (∀ s : PollerState, s.isPolling = true → pollerStep s PEvent.start = s) ∧
    (∀ evs : List PEvent, PEvent.stop ∉ evs → (runPoller pInit evs).inFlight ≤ 1) := by
  constructor
  · intro s hp
    simp [pollerStep, hp]
  · intro evs hmem
    obtain ⟨-, h1, -⟩ := pollerInv_run evs pInit pollerInv_init hmem
    exact le_trans (Nat.le_add_right _ _) h1

theorem c5_witness :
    pollerStep { isPolling := true, timerScheduled := false, lostTimers := 0, inFlight := 0 }
        PEvent.start =
      { isPolling := true, timerScheduled := false, lostTimers := 0, inFlight := 0 } ∧
    (runPoller pInit [PEvent.start]).inFlight ≤ 1 :=
  ⟨c5_start_idempotent_single_flight.1 _ rfl,
   c5_start_idempotent_single_flight.2 [PEvent.start] (by decide)⟩

/-- Claim C6: `stopPolling` is idempotent and cancels the pending
scheduled fetch, and after it no further poll fetch starts until
`startPolling` is called again — even a stray timer firing hits the
`if (!this.isPolling) return` entry guard of `poll`. -/
theorem c6_stop_halts :
    (∀ s : PollerState,
      pollerStep (pollerStep s PEvent.stop) PEvent.stop = pollerStep s PEvent.stop) ∧
    (∀ s : PollerState, (pollerStep s PEvent.stop).timerScheduled = false) ∧
    (∀ (s : PollerState) (evs : List PEvent), PEvent.start ∉ evs →
      countFetchStarts (pollerStep s PEvent.stop) evs = 0) := by
  refine ⟨fun s => rfl, fun s => rfl, fun s evs hmem => ?_⟩
  exact countFetchStarts_stopped evs (pollerStep s PEvent.stop) rfl hmem

theorem c6_witness :
    pollerStep (pollerStep pInit PEvent.stop) PEvent.stop = pollerStep pInit PEvent.stop ∧
    (pollerStep pInit PEvent.stop).timerScheduled = false ∧
    countFetchStarts (pollerStep pInit PEvent.stop)
      [PEvent.settle, PEvent.timerFire, PEvent.lostTimerFire] = 0 :=
  ⟨c6_stop_halts.1 pInit, c6_stop_halts.2.1 pInit,
   c6_stop_halts.2.2 pInit [PEvent.settle, PEvent.timerFire, PEvent.lostTimerFire]
     (by decide)⟩

/-- Claim C7: the status cycle law — the three recognized statuses step
through not_present → arrived → ready → not_present, every status
(including any unrecognized string, sent to not_present by the `default`
branch) lands in that cycle after one step, and from there the orbit has
period exactly 3 (no shorter period). -/
theorem c7_cycle_law :
    (cycleNextStatus "not_present" = "arrived" ∧ cycleNextStatus "arrived" = "ready" ∧
      cycleNextStatus "ready" = "not_present") ∧
    (∀ s : String, s ≠ "not_present" → s ≠ "arrived" → s ≠ "ready" →
      cycleNextStatus s = "not_present") ∧
    (∀ s : String,
      cycleNextStatus (cycleNextStatus (cycleNextStatus (cycleNextStatus s))) =
        cycleNextStatus s) ∧
    (∀ s : String,
      cycleNextStatus (cycleNextStatus s) ≠ cycleNextStatus s ∧
      cycleNextStatus (cycleNextStatus (cycleNextStatus s)) ≠ cycleNextStatus s) := by
  refine ⟨by decide, ?_, ?_, ?_⟩
  · intro s h1 h2 h3
    unfold cycleNextStatus
    rw [if_neg h1, if_neg h2, if_neg h3]
  · intro s
    rcases cycleNextStatus_cases s with h | h | h <;> rw [h] <;> decide
  · intro s
    rcases cycleNextStatus_cases s with h | h | h <;> rw [h] <;> exact by decide

theorem c7_witness :
    cycleNextStatus "unknown_status" = "not_present" ∧
    cycleNextStatus (cycleNextStatus "arrived") ≠ cycleNextStatus "arrived" :=
  ⟨c7_cycle_law.2.1 "unknown_status" (by decide) (by decide) (by decide),
   (c7_cycle_law.2.2.2 "arrived").1⟩

/-- Claim C8 counterexample: a hard refresh is not triggered only by
`routes_updated` — a payload with `routes_updated` false but
`needs_refresh` true whose content-only refetch throws also ends in
`window.location.reload()`. -/
theorem c8_counterexample :
    c8Payload.routes_updated = false ∧
    (pollStep (initClientState "routes" 100000 0) (FetchResult.ok c8Payload)
        RefreshFetch.rfError).reloadCount =
      (initClientState "routes" 100000 0).reloadCount + 1 := by
  decide

/-- Claim C8 (amended): on the routes page a true `routes_updated` flag
in a successful payload forces exactly one full reload and returns before
any per-route delta touches the DOM; and the only other way a poll tick
reloads the page is the safety-net fallback when a `needs_refresh`
content-only refetch throws. -/
theorem c8_reload_cases (st : ClientState) (d : SyncPayload) (cf : RefreshFetch)
    (hpage : st.currentPage = "routes") (hpoll : st.isPolling = true) :
    (d.success = true → d.routes_updated = true →
      (pollStep st (FetchResult.ok d) cf).reloadCount = st.reloadCount + 1 ∧
      (pollStep st (FetchResult.ok d) cf).dom = st.dom) ∧
    ((pollStep st (FetchResult.ok d) cf).reloadCount ≠ st.reloadCount →
      d.routes_updated = true ∨ cf = RefreshFetch.rfError) := by
  constructor
  · intro hs hru
    rw [pollStep_ok_success st d cf hpoll hs, handleSyncData_reload st d cf hpage hru]
    exact ⟨rfl, rfl⟩
  · intro hneq
    cases hs : d.success with
    | false =>
      rw [pollStep_ok_failure st d cf hpoll hs] at hneq
      exact absurd rfl hneq
    | true =>
      cases hru : d.routes_updated with
      | true => exact Or.inl rfl
      | false =>
        rw [pollStep_ok_success st d cf hpoll hs] at hneq
        cases hr : d.routes with
        | none =>
          rw [handleSyncData_noRoutes st d cf hpage hru hr] at hneq
          exact absurd rfl hneq
        | some rs =>
          have hsome : d.routes.isSome = true := by rw [hr]; rfl
          rw [handleSyncData_deltas st d cf hpage hru hsome] at hneq
          cases hnr : d.needs_refresh with
          | false =>
            rw [if_neg (by simp [hnr])] at hneq
            exact absurd (applyRoutesDeltas_reloadCount st d) hneq
          | true =>
            rw [if_pos hnr] at hneq
            cases cf with
            | rfError => exact Or.inr rfl
            | rfNotOk =>
              exact absurd (applyRoutesDeltas_reloadCount st d) hneq
            | rfOk rows =>
              exact absurd (applyRoutesDeltas_reloadCount st d) hneq

theorem c8_witness :
    (pollStep (initClientState "routes" 100000 0) (FetchResult.ok c8PayloadReload)
        RefreshFetch.rfNotOk).reloadCount =
      (initClientState "routes" 100000 0).reloadCount + 1 ∧
    (pollStep (initClientState "routes" 100000 0) (FetchResult.ok c8PayloadReload)
        RefreshFetch.rfNotOk).dom = (initClientState "routes" 100000 0).dom :=
  (c8_reload_cases (initClientState "routes" 100000 0) c8PayloadReload
    RefreshFetch.rfNotOk rfl (by decide)).1 rfl rfl

/-- Claim C9: applying the same status delta twice in succession is
idempotent — the second application finds the class already equal, leaves
every row (class, data attribute, innerHTML) unchanged, and reports
`hasChanges = false`. -/
theorem c9_delta_idempotent (dom : List Row) (rid : String) (d : RouteDelta) :
    updateRouteData (updateRouteData dom [(rid, d)]).1 [(rid, d)] =
      ((updateRouteData dom [(rid, d)]).1, false) := by
  have h := updateRow_idem dom rid d
  simp [updateRouteData, h]

/-- Claim C10: a `cycleRouteStatus` invocation while the button is
disabled or its processing flag is set returns immediately with no side
effects at all; in every execution from an idle button at most one
cycle-status POST is in flight at any instant; and the pending 300 ms
`.finally` timeout is what clears the processing flag and re-enables the
button. -/
theorem c10_reentrancy_guard :
    (∀ b : CycleButton, b.disabled = true ∨ b.processing = true → cycleClick b = b) ∧
    (∀ evs : List CEvent, (runCycleButton cycleButtonInit evs).inFlight ≤ 1) ∧
    (∀ b : CycleButton, b.pendingReenable = true →
      (cycleReenable b).processing = false ∧ (cycleReenable b).disabled = false) ∧
    reenableDelayMs = 300 := by
  refine ⟨?_, ?_, ?_, rfl⟩
  · intro b hblk
    simp [cycleClick, hblk]
  · intro evs
    obtain ⟨h1, -, -⟩ := cycleInv_run evs cycleButtonInit cycleInv_init
    exact h1
  · intro b hpr
    simp [cycleReenable, hpr]

theorem c10_witness :
    cycleClick { cycleButtonInit with processing := true } =
      { cycleButtonInit with processing := true } ∧
    (runCycleButton cycleButtonInit [CEvent.click]).inFlight ≤ 1 ∧
    (cycleReenable { cycleButtonInit with pendingReenable := true }).processing = false :=
  ⟨c10_reentrancy_guard.1 { cycleButtonInit with processing := true } (Or.inr rfl),
   c10_reentrancy_guard.2.1 [CEvent.click],
   (c10_reentrancy_guard.2.2.1 { cycleButtonInit with pendingReenable := true } rfl).1⟩

end HamiltonTMS
